import Mathlib

/-!
Verification development for the mcp-deepwiki-server crawl-and-cache engine.

Shallow embedding of:
- the retry utility (`retry`, `calculateDelay`, `RetryConditions`, `CircuitBreaker`)
  from `src/utils/logger.ts` (retry section);
- the cache service (`CacheService.get/set/delete`, `isExpired`) from
  `src/services/ai-service.ts` (cache-service section);
- the page-fetch pipeline (`DeepWikiFetcher.fetchSinglePage`,
  `fetchSinglePageWithRetry`) and the breadth-first crawl
  (`DeepWikiFetcher.fetchAllPages`, `fetchAggregated`, `fetchPages`) from the
  enhanced fetcher in `src/unnamed/part_004`;
- the `deepwiki_fetch` tool's aggregate-mode result text from
  `src/unnamed/part_006`.

Times are modelled as integer milliseconds (JS `Date.now()`); machine floats
used by the delay computation are modelled as exact rationals with the random
jitter sample passed explicitly.
-/

namespace DeepWiki

/-! ### Circuit breaker
Embedded from `CircuitBreaker` in the retry section of `src/utils/logger.ts`
(lines 110-196).  `execute` is split into the pre-check performed before the
wrapped function is invoked (`preflight`) and the `onSuccess`/`onFailure`
bookkeeping; `execute` itself takes the wrapped call's outcome as a boolean
(`true` = the promise resolved). -/

inductive CircuitBreakerState where
  | CLOSED
  | OPEN
  | HALF_OPEN
deriving DecidableEq, Repr

structure CircuitBreakerOptions where
  failureThreshold : ℕ
  resetTimeout : ℤ
deriving DecidableEq, Repr

/-- JS `x || d`: `undefined` and `0` both fall back to the default. -/
def resolveNatOpt (x : Option ℕ) (d : ℕ) : ℕ :=
  match x with
  | none => d
  | some v => if v = 0 then d else v

/-- Constructor defaults: `failureThreshold: options.failureThreshold || 5`,
`resetTimeout: options.resetTimeout || 60000`. -/
def CircuitBreakerOptions.resolve (ft rt : Option ℕ) : CircuitBreakerOptions :=
  { failureThreshold := resolveNatOpt ft 5
    resetTimeout := (resolveNatOpt rt 60000 : ℤ) }

structure CircuitBreaker where
  state : CircuitBreakerState
  failureCount : ℕ
  lastFailureTime : ℤ
  successCount : ℕ
  options : CircuitBreakerOptions
deriving DecidableEq, Repr

/-- Initial breaker: `state = CLOSED`, counters zero. -/
def CircuitBreaker.mk0 (opts : CircuitBreakerOptions) : CircuitBreaker :=
  { state := .CLOSED
    failureCount := 0
    lastFailureTime := 0
    successCount := 0
    options := opts }

/-- `onSuccess`: reset `failureCount`; in HALF_OPEN count successes and close
after the third. -/
def CircuitBreaker.onSuccess (b : CircuitBreaker) : CircuitBreaker :=
  let b1 := { b with failureCount := 0 }
  if b1.state = .HALF_OPEN then
    let b2 := { b1 with successCount := b1.successCount + 1 }
    if 3 ≤ b2.successCount then { b2 with state := .CLOSED } else b2
  else b1

/-- `onFailure`: bump `failureCount`, record `lastFailureTime`; HALF_OPEN
reopens immediately, CLOSED opens at the threshold. -/
def CircuitBreaker.onFailure (b : CircuitBreaker) (now : ℤ) : CircuitBreaker :=
  let b1 := { b with failureCount := b.failureCount + 1, lastFailureTime := now }
  if b1.state = .HALF_OPEN then
    { b1 with state := .OPEN }
  else if b1.options.failureThreshold ≤ b1.failureCount then
    { b1 with state := .OPEN }
  else b1

/-- The check `execute` performs before invoking the wrapped function:
`none` means the call is rejected with the circuit-open error (breaker
unchanged); `some b'` means the call proceeds against breaker state `b'`
(OPEN transitions to HALF_OPEN once the reset window has elapsed). -/
def CircuitBreaker.preflight (b : CircuitBreaker) (now : ℤ) : Option CircuitBreaker :=
  if b.state = .OPEN then
    if b.options.resetTimeout < now - b.lastFailureTime then
      some { b with state := .HALF_OPEN, successCount := 0 }
    else none
  else some b

inductive ExecOutcome where
  | circuitOpen
  | failed
  | succeeded
deriving DecidableEq, Repr

/-- `execute(fn)` at time `now`, where `fnSucceeds` tells whether the wrapped
promise resolves. Returns the call outcome and the updated breaker. -/
def CircuitBreaker.execute (b : CircuitBreaker) (now : ℤ) (fnSucceeds : Bool) :
    ExecOutcome × CircuitBreaker :=
  match b.preflight now with
  | none => (.circuitOpen, b)
  | some b1 =>
      if fnSucceeds then (.succeeded, b1.onSuccess)
      else (.failed, b1.onFailure now)

/-! ### Retry delay
Embedded from `calculateDelay` in `src/utils/logger.ts` (lines 255-272).
`Math.random()` is the explicit parameter `r`; `Math.round x = ⌊x + 1/2⌋`,
which is Mathlib's `round` on `ℚ`. -/

def calculateDelay (attempt : ℕ) (baseDelay maxDelay backoffFactor : ℚ)
    (jitter : Bool) (r : ℚ) : ℤ :=
  let d1 := baseDelay * backoffFactor ^ (attempt - 1)
  let d2 := min d1 maxDelay
  let d3 := if jitter then d2 + (r - 1/2) * 2 * (d2 * (25/100)) else d2
  max 0 (round d3)

/-! ### Retry conditions
Embedded from `RetryConditions.networkAndServerErrors` in
`src/utils/logger.ts` (lines 284-297): substring tests on the lower-cased
error message. -/

/-- `pat` occurs at the start of `l`. -/
def listStartsWith : List Char → List Char → Bool
  | [], _ => true
  | _ :: _, [] => false
  | a :: as, b :: bs => a = b && listStartsWith as bs

/-- `pat` occurs somewhere inside `l` (JS `String.prototype.includes`). -/
def listContains (pat : List Char) : List Char → Bool
  | [] => pat.isEmpty
  | b :: bs => listStartsWith pat (b :: bs) || listContains pat bs

/-- `message.toLowerCase()` at the character-list level. -/
def strToLower (s : String) : List Char :=
  s.toList.map Char.toLower

/-- `m.includes(pat)` where `m` is an already-lowercased message. -/
def strContains (m : List Char) (pat : String) : Bool :=
  listContains pat.toList m

def networkAndServerErrors (msg : String) : Bool :=
  let m := strToLower msg
  strContains m "network" || strContains m "timeout" ||
  strContains m "econnreset" || strContains m "enotfound" ||
  strContains m "5"

/-! ### Cache service
Embedded from `CacheService` in the cache-service section of
`src/services/ai-service.ts` (lines 279-550).  The two tiers are modelled as
partial maps from hashed cache keys; `hash` abstracts `generateCacheKey`
(the sha256 hex digest), assumed injective where needed.  A file may be
present but unreadable/unparsable (`FileData.corrupt`), in which case the
read throws inside the `try` and the `catch` yields a miss.  Disk-write
success is an environment input `diskOk` to `cacheSet`. -/

structure CacheEntry (α : Type) where
  data : α
  timestamp : ℤ
  ttl : ℤ
  key : String
deriving DecidableEq, Repr

inductive FileData (α : Type) where
  | valid (e : CacheEntry α)
  | corrupt
deriving DecidableEq, Repr

structure CacheState (α : Type) where
  mem : String → Option (CacheEntry α)
  file : String → Option (FileData α)

def cacheEmpty {α : Type} : CacheState α :=
  { mem := fun _ => none, file := fun _ => none }

def mapUpdate {β : Type} (m : String → Option β) (k : String) (v : Option β) :
    String → Option β :=
  fun k' => if k' = k then v else m k'

/-- `isExpired(entry)`: `Date.now() - entry.timestamp > entry.ttl`. -/
def isExpired {α : Type} (now : ℤ) (e : CacheEntry α) : Bool :=
  e.ttl < now - e.timestamp

/-- `delete(key)`: remove from the memory map and unlink the file. -/
def cacheDelete {α : Type} (hash : String → String) (st : CacheState α)
    (key : String) : CacheState α :=
  let ck := hash key
  { mem := mapUpdate st.mem ck none, file := mapUpdate st.file ck none }

/-- `get(key)`: memory tier first (skipped when expired); then the file tier,
where an expired entry is deleted and a parse/read failure is a miss; a file
hit is promoted into the memory tier. -/
def cacheGet {α : Type} (hash : String → String) (st : CacheState α)
    (key : String) (now : ℤ) : Option α × CacheState α :=
  let ck := hash key
  let fileBranch : Option α × CacheState α :=
    match st.file ck with
    | some (.valid e) =>
        if isExpired now e then (none, cacheDelete hash st key)
        else (some e.data, { st with mem := mapUpdate st.mem ck (some e) })
    | some .corrupt => (none, st)
    | none => (none, st)
  match st.mem ck with
  | some e => if isExpired now e then fileBranch else (some e.data, st)
  | none => fileBranch

/-- `set(key, data, ttl?)`: entry ttl is `ttl || defaultTtl` (so `0` falls
back to the default); the memory tier is written unconditionally, the file
write may fail (`diskOk = false`), which is logged and swallowed. -/
def cacheSet {α : Type} (hash : String → String) (defaultTtl : ℤ)
    (st : CacheState α) (key : String) (data : α) (ttl : ℤ) (now : ℤ)
    (diskOk : Bool) : CacheState α :=
  let ck := hash key
  let e : CacheEntry α := { data := data
                            timestamp := now
                            ttl := if ttl = 0 then defaultTtl else ttl
                            key := ck }
  let st1 := { st with mem := mapUpdate st.mem ck (some e) }
  if diskOk then { st1 with file := mapUpdate st1.file ck (some (.valid e)) }
  else st1

/-! ### Single-page fetch pipeline
Embedded from `DeepWikiFetcher.fetchSinglePage` / `fetchSinglePageWithRetry`
in the enhanced fetcher (`src/unnamed/part_004`, lines 812-901).  The network
is an environment `env : ℕ → NetOutcome` giving each attempt's outcome; the
engaged components are recorded as an ordered event trace. -/

inductive NetOutcome where
  | okPage (title content rawHtml : String)
  | httpStatus (code : ℕ)
  | netError (msg : String)
deriving DecidableEq, Repr

inductive FetchEvent where
  | cacheLookup (key : String)
  | cacheHit (key : String)
  | breakerEnter
  | breakerReject
  | attemptStart (n : ℕ)
  | acquireToken
  | httpRequest (url : String)
  | cacheStore (key : String) (ttl : ℤ)
deriving DecidableEq, Repr

structure DeepWikiPage where
  url : String
  title : String
  content : String
  depth : ℕ
  rawHtml : String
  fetchedAt : ℤ
deriving DecidableEq, Repr

/-- One attempt of `fetchSinglePage(url, depth)`: acquire a rate-limiter
token, perform the HTTP request; a non-ok status logs a warning and resolves
`null`; a successful response builds the page and caches it under
`page:<url>` for 30 minutes (1800000 ms); a thrown network error is
re-thrown for the retry logic. -/
def fetchSinglePage (hash : String → String) (defaultTtl : ℤ)
    (st : CacheState DeepWikiPage) (url : String) (depth : ℕ) (now : ℤ)
    (o : NetOutcome) (diskOk : Bool) :
    Except String (Option DeepWikiPage) × CacheState DeepWikiPage × List FetchEvent :=
  let evs := [FetchEvent.acquireToken, FetchEvent.httpRequest url]
  match o with
  | .httpStatus _ => (.ok none, st, evs)
  | .netError m => (.error m, st, evs)
  | .okPage t c raw =>
      let page : DeepWikiPage := ⟨url, t, c, depth, raw, now⟩
      let key := "page:" ++ url
      (.ok (some page), cacheSet hash defaultTtl st key page 1800000 now diskOk,
        evs ++ [FetchEvent.cacheStore key 1800000])

/-- The `retry` loop from `src/utils/logger.ts` (lines 201-239) specialised to
the single-page fetch: attempts run from `attempt = 1`; a caught error stops
the loop when `attempt = maxAttempts` or the retry condition
(`networkAndServerErrors`) rejects it, and otherwise the next attempt runs.
`remaining` is structural fuel; called with `remaining = maxAttempts` it can
never run out before the loop's own exit conditions fire. -/
def runRetry (hash : String → String) (defaultTtl : ℤ) (url : String)
    (depth : ℕ) (now : ℤ) (diskOk : Bool) (env : ℕ → NetOutcome)
    (maxAttempts : ℕ) :
    ℕ → ℕ → CacheState DeepWikiPage →
    Except String (Option DeepWikiPage) × CacheState DeepWikiPage × List FetchEvent
  | 0, _, st => (.error "retry fuel exhausted", st, [])
  | remaining + 1, attempt, st =>
      let r1 := fetchSinglePage hash defaultTtl st url depth now (env attempt) diskOk
      let evs := FetchEvent.attemptStart attempt :: r1.2.2
      match r1.1 with
      | .ok v => (.ok v, r1.2.1, evs)
      | .error m =>
          if attempt = maxAttempts || !networkAndServerErrors m then
            (.error m, r1.2.1, evs)
          else
            let r2 := runRetry hash defaultTtl url depth now diskOk env maxAttempts
              remaining (attempt + 1) r1.2.1
            (r2.1, r2.2.1, evs ++ r2.2.2)

/-- `fetchSinglePageWithRetry(url, depth)`: consult the cache under
`page:<url>` first; on a miss, run `circuitBreaker.execute` around
`retry(() => fetchSinglePage(url, depth), { maxAttempts: 3, ... })`. -/
def fetchSinglePageWithRetry (hash : String → String) (defaultTtl : ℤ)
    (st : CacheState DeepWikiPage) (breaker : CircuitBreaker) (url : String)
    (depth : ℕ) (now : ℤ) (env : ℕ → NetOutcome) (diskOk : Bool) :
    Except String (Option DeepWikiPage) × CacheState DeepWikiPage ×
      CircuitBreaker × List FetchEvent :=
  let key := "page:" ++ url
  let hit := cacheGet hash st key now
  match hit.1 with
  | some page =>
      (.ok (some page), hit.2, breaker, [.cacheLookup key, .cacheHit key])
  | none =>
      match breaker.preflight now with
      | none =>
          (.error "Circuit breaker is OPEN", hit.2, breaker,
            [.cacheLookup key, .breakerEnter, .breakerReject])
      | some b1 =>
          let r := runRetry hash defaultTtl url depth now diskOk env 3 3 1 hit.2
          match r.1 with
          | .ok v =>
              (.ok v, r.2.1, b1.onSuccess,
                [.cacheLookup key, .breakerEnter] ++ r.2.2)
          | .error m =>
              (.error m, r.2.1, b1.onFailure now,
                [.cacheLookup key, .breakerEnter] ++ r.2.2)

/-! ### Crawl loop
Embedded from `DeepWikiFetcher.fetchAllPages` / `fetchAggregated` /
`fetchPages` (`src/unnamed/part_004`, lines 688-807) and the aggregate-mode
branch of the `deepwiki_fetch` tool handler (`src/unnamed/part_006`, lines
209-220).  URLs are a parameter type `υ`; each URL's settled fetch outcome
and the same-repository links extracted from its page are the environment.
The loop carries structural fuel for termination; every claim is stated for
all fuel values or at a fuel large enough for the concrete run to finish.
`fetchAggregated`/`fetchPages` are modelled on their result-cache-miss path
(the cached path returns a previously built result unchanged). -/

inductive PageFetchOutcome where
  | ok
  | nullPage
  | err
deriving DecidableEq, Repr

structure CrawlWorld (υ : Type) where
  outcome : υ → PageFetchOutcome
  links : υ → List υ
  title : υ → String
  content : υ → String

structure CrawlPage (υ : Type) where
  url : υ
  title : String
  content : String
  depth : ℕ
deriving DecidableEq, Repr

/-- Processing of one settled batch (the sequential `for` over
`batchResults`): fulfilled non-null pages are appended in batch order; when
`page.depth < maxDepth` the page's links that are not yet visited are pushed
as new frontier tasks at `depth + 1`; rejected or null results are skipped.
Returns the grown page list and the pushed tasks in push order. -/
def processSettled {υ : Type} [DecidableEq υ] (w : CrawlWorld υ) (maxDepth : ℕ)
    (visited : List υ) :
    List (υ × ℕ) → List (CrawlPage υ) → List (CrawlPage υ) × List (υ × ℕ)
  | [], pages => (pages, [])
  | t :: ts, pages =>
      match w.outcome t.1 with
      | .ok =>
          let page : CrawlPage υ := ⟨t.1, w.title t.1, w.content t.1, t.2⟩
          let newLinks := if t.2 < maxDepth then
              ((w.links t.1).filter (fun l => !visited.contains l)).map
                (fun l => (l, t.2 + 1))
            else []
          let rest := processSettled w maxDepth visited ts (pages ++ [page])
          (rest.1, newLinks ++ rest.2)
      | _ => processSettled w maxDepth visited ts pages

/-- The `while (queue.length > 0 && pages.length < 100)` loop of
`fetchAllPages`: splice up to 5 tasks, drop visited or depth-exceeding ones,
mark the rest visited, fetch them as a settled batch, collect pages and new
frontier tasks. -/
def fetchAllPagesLoop {υ : Type} [DecidableEq υ] (w : CrawlWorld υ)
    (maxDepth : ℕ) :
    ℕ → List υ → List (υ × ℕ) → List (CrawlPage υ) → List (CrawlPage υ)
  | 0, _, _, pages => pages
  | fuel + 1, visited, queue, pages =>
      if queue.isEmpty || !(pages.length < 100) then pages
      else
        let n := min 5 queue.length
        let currentBatch := queue.take n
        let rest := queue.drop n
        let tasks := currentBatch.filter
          (fun t => !visited.contains t.1 && t.2 ≤ maxDepth)
        let visited' := visited ++ tasks.map (·.1)
        if tasks.isEmpty then fetchAllPagesLoop w maxDepth fuel visited' rest pages
        else
          let step := processSettled w maxDepth visited' tasks pages
          fetchAllPagesLoop w maxDepth fuel visited' (rest ++ step.2) step.1

/-- `fetchAllPages(urlInfo, maxDepth)`: queue seeded with the repository base
URL at depth 0, `visited` and `pages` empty. -/
def fetchAllPages {υ : Type} [DecidableEq υ] (w : CrawlWorld υ)
    (maxDepth fuel : ℕ) (root : υ) : List (CrawlPage υ) :=
  fetchAllPagesLoop w maxDepth fuel [] [(root, 0)] []

structure DeepWikiResult (υ : Type) where
  repository : String
  mode : String
  content : String
  pages : List (CrawlPage υ)
  pageCount : ℕ
  fetchedAt : ℤ
deriving DecidableEq, Repr

/-- `fetchAggregated` (cache-miss path): crawl, join the pages as
`# title\n\ncontent` separated by a horizontal rule, report
`pageCount = pages.length`. -/
def fetchAggregated {υ : Type} [DecidableEq υ] (w : CrawlWorld υ)
    (repo : String) (maxDepth fuel : ℕ) (root : υ) (now : ℤ) :
    DeepWikiResult υ :=
  let pages := fetchAllPages w maxDepth fuel root
  let aggregatedContent := String.intercalate "\n\n---\n\n"
    (pages.map (fun p => "# " ++ p.title ++ "\n\n" ++ p.content))
  { repository := repo
    mode := "aggregate"
    content := aggregatedContent
    pages := []
    pageCount := pages.length
    fetchedAt := now }

/-- `fetchPages` (cache-miss path): crawl and return the structured list. -/
def fetchPages {υ : Type} [DecidableEq υ] (w : CrawlWorld υ) (repo : String)
    (maxDepth fuel : ℕ) (root : υ) (now : ℤ) : DeepWikiResult υ :=
  let pages := fetchAllPages w maxDepth fuel root
  { repository := repo
    mode := "pages"
    content := ""
    pages := pages
    pageCount := pages.length
    fetchedAt := now }

/-- The aggregate-mode tool handler surfaces
`result.content || "No content found"` as the response text (an ordinary,
non-error content response). -/
def deepwikiFetchAggregateText {υ : Type} (r : DeepWikiResult υ) : String :=
  if r.content = "" then "No content found" else r.content

/-! ### Concrete scenario data used by the theorems below. -/

/-- Number of `attemptStart` events in a trace (retry attempts actually run). -/
def countAttempts (evs : List FetchEvent) : ℕ :=
  (evs.filter fun e => match e with | .attemptStart _ => true | _ => false).length

/-- Number of `acquireToken` events in a trace (rate-limiter engagements). -/
def countAcquireTokens (evs : List FetchEvent) : ℕ :=
  (evs.filter fun e => match e with | .acquireToken => true | _ => false).length

/-- The default circuit breaker of the enhanced fetcher
(`failureThreshold: 5, resetTimeout: 60000`). -/
def cbDefaultOptions : CircuitBreakerOptions := CircuitBreakerOptions.resolve none none

/-- Network environment: every attempt answers HTTP 500. -/
def env500 : ℕ → NetOutcome := fun _ => .httpStatus 500

/-- Network environment: first attempt throws a network timeout, later
attempts succeed. -/
def envTimeoutThenOk : ℕ → NetOutcome := fun n =>
  if n = 1 then .netError "network timeout" else .okPage "T" "C" "H"

/-- Scenario B world: the root (URL `0`) links to 150 same-repository pages
(URLs `1`-`150`), every fetch succeeds, linked pages have no further links. -/
def capWorld : CrawlWorld ℕ :=
  { outcome := fun _ => .ok
    links := fun u => if u = 0 then (List.range 150).map (· + 1) else []
    title := fun _ => "t"
    content := fun _ => "c" }

/-- World whose every fetch is rejected (root page unfetchable). -/
def rootFailWorld : CrawlWorld ℕ :=
  { outcome := fun _ => .err
    links := fun _ => []
    title := fun _ => "t"
    content := fun _ => "c" }

/-- Scenario C world: root (URL `0`) links to URLs `1` and `2`; the fetch of
URL `1` fails after exhausting retries, the others succeed. -/
def mixedWorld : CrawlWorld ℕ :=
  { outcome := fun u => if u = 1 then .err else .ok
    links := fun u => if u = 0 then [1, 2] else []
    title := fun _ => "t"
    content := fun _ => "c" }

/-- An OPEN breaker used to witness the fail-fast behaviour. -/
def bOpen : CircuitBreaker :=
  { state := .OPEN
    failureCount := 5
    lastFailureTime := 1000
    successCount := 0
    options := cbDefaultOptions }

/-- A HALF_OPEN breaker (as produced by the OPEN → HALF_OPEN transition). -/
def bHalfOpen : CircuitBreaker :=
  { state := .HALF_OPEN
    failureCount := 5
    lastFailureTime := 1000
    successCount := 0
    options := cbDefaultOptions }

/-! ## Theorems -/

lemma cb_iterate_onFailure (opts : CircuitBreakerOptions) (now : ℤ) :
    ∀ k, k < opts.failureThreshold →
      ((fun b => CircuitBreaker.onFailure b now)^[k] (CircuitBreaker.mk0 opts)).state
          = .CLOSED ∧
      ((fun b => CircuitBreaker.onFailure b now)^[k] (CircuitBreaker.mk0 opts)).failureCount
          = k ∧
      ((fun b => CircuitBreaker.onFailure b now)^[k] (CircuitBreaker.mk0 opts)).options
          = opts := by
  intro k
  induction k with
  | zero => intro _; exact ⟨rfl, rfl, rfl⟩
  | succ k ih =>
      intro hk
      obtain ⟨hs, hc, ho⟩ := ih (by omega)
      rw [Function.iterate_succ_apply']
      set b := (fun b => CircuitBreaker.onFailure b now)^[k] (CircuitBreaker.mk0 opts)
        with hb
      have hnotopen : ¬ opts.failureThreshold ≤ k + 1 := by omega
      simp [CircuitBreaker.onFailure, hs, hc, ho, hnotopen]

/-- C4: the circuit breaker state machine: it starts CLOSED with zero
failures; `failureThreshold` consecutive failures from the initial state
transition it to OPEN; while OPEN within the reset window every `execute`
fails with the circuit-open error without invoking (or depending on) the
wrapped function and leaves the breaker unchanged; once strictly more than
`resetTimeout` has elapsed since the last failure the next call transitions
to HALF_OPEN (with `successCount` reset) before attempting; in HALF_OPEN,
three consecutive successes transition to CLOSED with `failureCount` reset,
and any single failure transitions immediately back to OPEN recording
`lastFailureTime := now`. -/
theorem circuit_breaker_state_machine :
    (∀ opts, (CircuitBreaker.mk0 opts).state = .CLOSED ∧
       (CircuitBreaker.mk0 opts).failureCount = 0)
  ∧ (∀ (opts : CircuitBreakerOptions) (now : ℤ), 0 < opts.failureThreshold →
       ((fun b => CircuitBreaker.onFailure b now)^[opts.failureThreshold]
          (CircuitBreaker.mk0 opts)).state = .OPEN)
  ∧ (∀ (b : CircuitBreaker) (now : ℤ) (fn₁ fn₂ : Bool), b.state = .OPEN →
       now - b.lastFailureTime ≤ b.options.resetTimeout →
       b.execute now fn₁ = (.circuitOpen, b) ∧
       b.execute now fn₁ = b.execute now fn₂)
  ∧ (∀ (b : CircuitBreaker) (now : ℤ), b.state = .OPEN →
       b.options.resetTimeout < now - b.lastFailureTime →
       b.preflight now = some { b with state := .HALF_OPEN, successCount := 0 })
  ∧ (∀ (b : CircuitBreaker) (now₁ now₂ now₃ : ℤ), b.state = .HALF_OPEN →
       b.successCount = 0 →
       (((b.execute now₁ true).2.execute now₂ true).2.execute now₃ true).2.state
           = .CLOSED ∧
       (((b.execute now₁ true).2.execute now₂ true).2.execute now₃ true).2.failureCount
           = 0)
  ∧ (∀ (b : CircuitBreaker) (now : ℤ), b.state = .HALF_OPEN →
       (b.onFailure now).state = .OPEN ∧ (b.onFailure now).lastFailureTime = now) := by
  refine ⟨fun opts => ⟨rfl, rfl⟩, ?_, ?_, ?_, ?_, ?_⟩
  · intro opts now ht
    obtain ⟨hs, hc, ho⟩ := cb_iterate_onFailure opts now (opts.failureThreshold - 1)
      (by omega)
    have hsplit : opts.failureThreshold = (opts.failureThreshold - 1) + 1 := by omega
    rw [hsplit, Function.iterate_succ_apply']
    set b := (fun b => CircuitBreaker.onFailure b now)^[opts.failureThreshold - 1]
      (CircuitBreaker.mk0 opts) with hbdef
    show (CircuitBreaker.onFailure b now).state = .OPEN
    simp only [CircuitBreaker.onFailure, hs, hc, ho]
    rw [if_neg (by decide), if_pos (by omega)]
  · intro b now fn₁ fn₂ hs hwin
    have hpf : b.preflight now = none := by
      simp [CircuitBreaker.preflight, hs, not_lt.mpr hwin]
    constructor
    · simp [CircuitBreaker.execute, hpf]
    · simp [CircuitBreaker.execute, hpf]
  · intro b now hs hwin
    simp [CircuitBreaker.preflight, hs, hwin]
  · intro b now₁ now₂ now₃ hs hsc
    have h1 : (b.execute now₁ true).2 =
        { b with failureCount := 0, successCount := 1 } := by
      simp [CircuitBreaker.execute, CircuitBreaker.preflight,
        CircuitBreaker.onSuccess, hs, hsc]
    have h2 : (({ b with failureCount := 0, successCount := 1 } :
        CircuitBreaker).execute now₂ true).2 =
        { b with failureCount := 0, successCount := 2 } := by
      simp [CircuitBreaker.execute, CircuitBreaker.preflight,
        CircuitBreaker.onSuccess, hs]
    have h3 : (({ b with failureCount := 0, successCount := 2 } :
        CircuitBreaker).execute now₃ true).2 =
        { b with failureCount := 0, successCount := 3, state := .CLOSED } := by
      simp [CircuitBreaker.execute, CircuitBreaker.preflight,
        CircuitBreaker.onSuccess, hs]
    rw [h1, h2, h3]
    exact ⟨rfl, rfl⟩
  · intro b now hs
    simp [CircuitBreaker.onFailure, hs]

/-- Witness for `circuit_breaker_state_machine` at a concrete breaker:
an OPEN breaker inside the reset window rejects an `execute` at time 2000
without state change. -/
theorem circuit_breaker_state_machine_witness :
    bOpen.execute 2000 true = (.circuitOpen, bOpen) :=
  (circuit_breaker_state_machine.2.2.1 bOpen 2000 true false (by decide)
    (by decide)).1

lemma calculateDelay_noJitter_nat (a b M f : ℕ) (r : ℚ) :
    calculateDelay a b M f false r = ((min (b * f ^ (a - 1)) M : ℕ) : ℤ) := by
  have h1 : ((b : ℚ) * (f : ℚ) ^ (a - 1)) = ((b * f ^ (a - 1) : ℕ) : ℚ) := by
    push_cast; ring
  simp only [calculateDelay, if_neg (by simp : ¬ (false = true)), h1,
    ← Nat.cast_min, round_natCast]
  exact max_eq_right (Int.natCast_nonneg _)

/-- C6: the retry delay before the (a+1)-th try is
`min(maxDelay, baseDelay * backoffFactor^(a-1))`; when jitter is enabled the
result stays within ±25% of that value (up to the final rounding) and is
clamped to be nonnegative; with `baseDelay = 100`, `backoffFactor = 2` and
jitter disabled the delays for attempts 1, 2, 3 are exactly 100, 200, 400. -/
theorem retry_backoff_delay :
    (∀ (a b M f : ℕ) (r : ℚ),
       calculateDelay a b M f false r = ((min (b * f ^ (a - 1)) M : ℕ) : ℤ))
  ∧ (∀ (a : ℕ) (b M f r : ℚ), 0 ≤ r → r ≤ 1 → 0 ≤ b → 0 ≤ f → 0 ≤ M →
       0 ≤ calculateDelay a b M f true r ∧
       |(calculateDelay a b M f true r : ℚ) - min (b * f ^ (a - 1)) M| ≤
         min (b * f ^ (a - 1)) M / 4 + 1 / 2)
  ∧ (∀ r, calculateDelay 1 100 30000 2 false r = 100)
  ∧ (∀ r, calculateDelay 2 100 30000 2 false r = 200)
  ∧ (∀ r, calculateDelay 3 100 30000 2 false r = 400) := by
  refine ⟨calculateDelay_noJitter_nat, ?_, ?_, ?_, ?_⟩
  · intro a b M f r hr0 hr1 hb hf hM
    set d : ℚ := min (b * f ^ (a - 1)) M with hd
    have hd0 : (0 : ℚ) ≤ d := le_min (mul_nonneg hb (pow_nonneg hf _)) hM
    set x : ℚ := d + (r - 1 / 2) * 2 * (d * (25 / 100)) with hx
    have hcd : calculateDelay a b M f true r = max 0 (round x) := by
      simp [calculateDelay, hx, hd]
    have hxlo : 3 / 4 * d ≤ x := by rw [hx]; nlinarith
    have hxhi : x ≤ 5 / 4 * d := by rw [hx]; nlinarith
    have hx0 : (0 : ℚ) ≤ x := le_trans (by nlinarith) hxlo
    have hrnd0 : (0 : ℤ) ≤ round x := by
      rw [round_eq]
      exact Int.le_floor.mpr (by push_cast; linarith)
    have hmax : max 0 (round x) = round x := max_eq_right hrnd0
    refine ⟨by rw [hcd, hmax]; exact hrnd0, ?_⟩
    rw [hcd, hmax]
    have habs : |(round x : ℚ) - x| ≤ 1 / 2 := by
      rw [abs_sub_comm]; exact abs_sub_round x
    have hxd : |x - d| ≤ d / 4 := abs_le.mpr ⟨by linarith, by linarith⟩
    calc |(round x : ℚ) - d| ≤ |(round x : ℚ) - x| + |x - d| := abs_sub_le _ x _
      _ ≤ 1 / 2 + d / 4 := add_le_add habs hxd
      _ = d / 4 + 1 / 2 := by ring
  · intro r
    have h := calculateDelay_noJitter_nat 1 100 30000 2 r
    norm_num at h
    exact h
  · intro r
    have h := calculateDelay_noJitter_nat 2 100 30000 2 r
    norm_num at h
    exact h
  · intro r
    have h := calculateDelay_noJitter_nat 3 100 30000 2 r
    norm_num at h
    exact h

/-- Witness for `retry_backoff_delay`: the jittered delay for attempt 2 with
`r = 1` lands within the ±25% band around 200. -/
theorem retry_backoff_delay_witness :
    0 ≤ calculateDelay 2 100 30000 2 true 1 ∧
    |(calculateDelay 2 100 30000 2 true 1 : ℚ) - min (100 * 2 ^ (2 - 1)) 30000| ≤
      min ((100 : ℚ) * 2 ^ (2 - 1)) 30000 / 4 + 1 / 2 :=
  retry_backoff_delay.2.1 2 100 30000 2 1 (by norm_num) (by norm_num)
    (by norm_num) (by norm_num) (by norm_num)

/-- C7 counterexample: `set(k, v, ttl)` with `ttl = 0` stores the entry with
the 24-hour default ttl (`ttl || this.defaultTtl`), so at time 5 — strictly
more than `ttl = 0` milliseconds after the set — `get(k)` still returns the
value instead of the miss the claim requires. -/
theorem cache_ttl_zero_counterexample :
    (0 : ℤ) < 5 - 0 ∧
    (cacheGet id (cacheSet id 86400000 (cacheEmpty (α := ℕ)) "k" 7 0 0 true) "k" 5).1
      = some 7 := by
  exact ⟨by decide, by decide⟩

/-- C7 (amended): for every key, value and ttl > 0: `set(k, v, ttl)` followed
by an immediate `get(k)` returns `v`; once strictly more than `ttl` has
elapsed, `get(k)` misses, and — when the entry was persisted — the read past
expiry deletes it from both tiers of the store.  (`ttl = 0` instead falls
back to the 24-hour default because of `ttl || this.defaultTtl`.) -/
theorem cache_roundtrip_ttl (α : Type) (hash : String → String) (defaultTtl : ℤ)
    (st : CacheState α) (k : String) (v : α) (ttl t t' : ℤ) (diskOk : Bool)
    (httl : 0 < ttl) :
    (cacheGet hash (cacheSet hash defaultTtl st k v ttl t diskOk) k t).1 = some v
  ∧ (ttl < t' - t →
      (cacheGet hash (cacheSet hash defaultTtl st k v ttl t true) k t').1 = none
    ∧ (cacheGet hash (cacheSet hash defaultTtl st k v ttl t true) k t').2.mem (hash k)
        = none
    ∧ (cacheGet hash (cacheSet hash defaultTtl st k v ttl t true) k t').2.file (hash k)
        = none) := by
  have hne : ¬ ttl = 0 := by omega
  have hnl : ¬ ttl < 0 := by omega
  constructor
  · cases diskOk <;>
      simp [cacheGet, cacheSet, mapUpdate, isExpired, hne, hnl]
  · intro hlt
    have hlt' : ttl < t' - t := hlt
    refine ⟨?_, ?_, ?_⟩ <;>
      simp [cacheGet, cacheSet, cacheDelete, mapUpdate, isExpired, hne, hlt']

/-- Witness for `cache_roundtrip_ttl` at `hash = id`, `ttl = 10`, set at 0,
expired read at 20. -/
theorem cache_roundtrip_ttl_witness :
    (cacheGet id (cacheSet id 86400000 (cacheEmpty (α := ℕ)) "k" 7 10 0 true) "k" 0).1
      = some 7
  ∧ (cacheGet id (cacheSet id 86400000 (cacheEmpty (α := ℕ)) "k" 7 10 0 true) "k" 20).1
      = none :=
  ⟨(cache_roundtrip_ttl ℕ id 86400000 cacheEmpty "k" 7 10 0 20 true (by decide)).1,
   ((cache_roundtrip_ttl ℕ id 86400000 cacheEmpty "k" 7 10 0 20 true (by decide)).2
      (by decide)).1⟩

/-- C8: `set` swallows a failed file write (`diskOk = false`): the in-memory
entry still exists, so a later `get` of the same key in the same process
(within the ttl) hits; and a corrupted/unreadable file entry on read
degrades to a cache miss leaving the state unchanged — in this embedding
`cacheSet` and `cacheGet` are total functions, mirroring the source's
catch-all handlers that log and swallow the error rather than throwing. -/
theorem cache_write_failure_degrades (α : Type) (hash : String → String)
    (defaultTtl : ℤ) (st : CacheState α) (k : String) (v : α) (ttl t t' : ℤ)
    (httl : 0 < ttl) (hwin : t' - t ≤ ttl) :
    (cacheSet hash defaultTtl st k v ttl t false).mem (hash k) =
      some { data := v, timestamp := t, ttl := ttl, key := hash k }
  ∧ (cacheGet hash (cacheSet hash defaultTtl st k v ttl t false) k t').1 = some v
  ∧ (∀ (st' : CacheState α) (k' : String) (now : ℤ),
      st'.mem (hash k') = none → st'.file (hash k') = some .corrupt →
      cacheGet hash st' k' now = (none, st')) := by
  have hne : ¬ ttl = 0 := by omega
  have hnex : ¬ ttl < t' - t := by omega
  refine ⟨?_, ?_, ?_⟩
  · simp [cacheSet, mapUpdate, hne]
  · simp [cacheGet, cacheSet, mapUpdate, isExpired, hne, hnex]
  · intro st' k' now hmem hfile
    simp [cacheGet, hmem, hfile]

/-- Witness for `cache_write_failure_degrades`: failed persistence at time 0,
read back at time 3 within a ttl of 10. -/
theorem cache_write_failure_degrades_witness :
    (cacheGet id (cacheSet id 86400000 (cacheEmpty (α := ℕ)) "k" 7 10 0 false) "k" 3).1
      = some 7 :=
  (cache_write_failure_degrades ℕ id 86400000 cacheEmpty "k" 7 10 0 3 (by decide)
    (by decide)).2.1

lemma pipeline_http_status (hash : String → String) (defaultTtl : ℤ)
    (st : CacheState DeepWikiPage) (b : CircuitBreaker) (url : String)
    (depth : ℕ) (now : ℤ) (env : ℕ → NetOutcome) (diskOk : Bool) (code : ℕ)
    (hmiss : (cacheGet hash st ("page:" ++ url) now).1 = none)
    (hclosed : b.state = .CLOSED)
    (henv : env 1 = .httpStatus code) :
    fetchSinglePageWithRetry hash defaultTtl st b url depth now env diskOk =
      (.ok none, (cacheGet hash st ("page:" ++ url) now).2,
        { b with failureCount := 0 },
        [.cacheLookup ("page:" ++ url), .breakerEnter, .attemptStart 1,
         .acquireToken, .httpRequest url]) := by
  simp [fetchSinglePageWithRetry, hmiss, CircuitBreaker.preflight,
    CircuitBreaker.onSuccess, hclosed, runRetry, fetchSinglePage, henv]

lemma pipeline_ok_first (hash : String → String) (defaultTtl : ℤ)
    (st : CacheState DeepWikiPage) (b : CircuitBreaker) (url ti c raw : String)
    (depth : ℕ) (now : ℤ) (env : ℕ → NetOutcome) (diskOk : Bool)
    (hmiss : (cacheGet hash st ("page:" ++ url) now).1 = none)
    (hclosed : b.state = .CLOSED)
    (henv : env 1 = .okPage ti c raw) :
    fetchSinglePageWithRetry hash defaultTtl st b url depth now env diskOk =
      (.ok (some ⟨url, ti, c, depth, raw, now⟩),
        cacheSet hash defaultTtl (cacheGet hash st ("page:" ++ url) now).2
          ("page:" ++ url) ⟨url, ti, c, depth, raw, now⟩ 1800000 now diskOk,
        { b with failureCount := 0 },
        [.cacheLookup ("page:" ++ url), .breakerEnter, .attemptStart 1,
         .acquireToken, .httpRequest url, .cacheStore ("page:" ++ url) 1800000]) := by
  simp [fetchSinglePageWithRetry, hmiss, CircuitBreaker.preflight,
    CircuitBreaker.onSuccess, hclosed, runRetry, fetchSinglePage, henv]

/-- C2 counterexample: every attempt answering HTTP 500, the pipeline
resolves `null` after exactly one attempt — the 5xx response is not
retried at all (it never reaches the retry predicate, because
`fetchSinglePage` returns `null` instead of throwing on a non-ok status). -/
theorem http5xx_not_retried_counterexample :
    (fetchSinglePageWithRetry id 86400000 cacheEmpty
        (CircuitBreaker.mk0 cbDefaultOptions) "u" 0 0 env500 true).1 = .ok none
  ∧ countAttempts (fetchSinglePageWithRetry id 86400000 cacheEmpty
        (CircuitBreaker.mk0 cbDefaultOptions) "u" 0 0 env500 true).2.2.2 = 1 := by
  exact ⟨by rfl, by decide⟩

/-- C2 (amended): any non-ok HTTP status — 4xx and 5xx alike — is not
retried: `fetchSinglePage` resolves `null` for it, so the retry pipeline
performs exactly one attempt and reports success; only thrown errors
(network failures, timeouts) whose message satisfies
`networkAndServerErrors` are retried. -/
theorem http_status_never_retried (hash : String → String) (defaultTtl : ℤ)
    (st : CacheState DeepWikiPage) (b : CircuitBreaker) (url : String)
    (depth : ℕ) (now : ℤ) (env : ℕ → NetOutcome) (diskOk : Bool) (code : ℕ)
    (hmiss : (cacheGet hash st ("page:" ++ url) now).1 = none)
    (hclosed : b.state = .CLOSED)
    (henv : env 1 = .httpStatus code) :
    (fetchSinglePageWithRetry hash defaultTtl st b url depth now env diskOk).1
      = .ok none
  ∧ countAttempts
      (fetchSinglePageWithRetry hash defaultTtl st b url depth now env diskOk).2.2.2
      = 1 := by
  rw [pipeline_http_status hash defaultTtl st b url depth now env diskOk code
    hmiss hclosed henv]
  exact ⟨rfl, rfl⟩

/-- Witness for `http_status_never_retried` at a concrete HTTP 404. -/
theorem http_status_never_retried_witness :
    (fetchSinglePageWithRetry id 86400000 cacheEmpty
        (CircuitBreaker.mk0 cbDefaultOptions) "w" 0 0 (fun _ => .httpStatus 404)
        true).1 = .ok none
  ∧ countAttempts (fetchSinglePageWithRetry id 86400000 cacheEmpty
        (CircuitBreaker.mk0 cbDefaultOptions) "w" 0 0 (fun _ => .httpStatus 404)
        true).2.2.2 = 1 :=
  http_status_never_retried id 86400000 cacheEmpty
    (CircuitBreaker.mk0 cbDefaultOptions) "w" 0 0 (fun _ => .httpStatus 404)
    true 404 (by decide) (by decide) rfl

lemma countAcquireTokens_append (a b : List FetchEvent) :
    countAcquireTokens (a ++ b) = countAcquireTokens a + countAcquireTokens b := by
  simp [countAcquireTokens, List.filter_append]

lemma countAttempts_append (a b : List FetchEvent) :
    countAttempts (a ++ b) = countAttempts a + countAttempts b := by
  simp [countAttempts, List.filter_append]

/-- In every run of the retry loop, the rate-limiter token is acquired
exactly once per attempt (the `acquire()` call is the first statement of
`fetchSinglePage`, inside the retried function). -/
lemma runRetry_acquire_per_attempt (hash : String → String) (defaultTtl : ℤ)
    (url : String) (depth : ℕ) (now : ℤ) (diskOk : Bool) (env : ℕ → NetOutcome)
    (maxAttempts : ℕ) :
    ∀ (remaining attempt : ℕ) (st : CacheState DeepWikiPage),
      countAcquireTokens
        (runRetry hash defaultTtl url depth now diskOk env maxAttempts
          remaining attempt st).2.2
      = countAttempts
        (runRetry hash defaultTtl url depth now diskOk env maxAttempts
          remaining attempt st).2.2 := by
  intro remaining
  induction remaining with
  | zero =>
      intro attempt st
      simp [runRetry, countAcquireTokens, countAttempts]
  | succ n ih =>
      intro attempt st
      cases henv : env attempt with
      | okPage t c raw =>
          simp [runRetry, fetchSinglePage, henv, countAcquireTokens, countAttempts]
      | httpStatus code =>
          simp [runRetry, fetchSinglePage, henv, countAcquireTokens, countAttempts]
      | netError m =>
          by_cases hstop : (attempt = maxAttempts || !networkAndServerErrors m) = true
          · simp [runRetry, fetchSinglePage, henv, hstop, countAcquireTokens,
              countAttempts]
          · have ih' := ih (attempt + 1) st
            simp only [countAcquireTokens, countAttempts] at ih' ⊢
            simp [runRetry, fetchSinglePage, henv, hstop, List.filter_append, ih']

/-- The first attempt always runs: each branch of the loop body emits
`attemptStart attempt` first. -/
lemma runRetry_attempts_pos (hash : String → String) (defaultTtl : ℤ)
    (url : String) (depth : ℕ) (now : ℤ) (diskOk : Bool) (env : ℕ → NetOutcome)
    (maxAttempts : ℕ) (remaining attempt : ℕ) (st : CacheState DeepWikiPage) :
    1 ≤ countAttempts
      (runRetry hash defaultTtl url depth now diskOk env maxAttempts
        (remaining + 1) attempt st).2.2 := by
  cases henv : env attempt with
  | okPage t c raw =>
      simp [runRetry, fetchSinglePage, henv, countAttempts]
  | httpStatus code =>
      simp [runRetry, fetchSinglePage, henv, countAttempts]
  | netError m =>
      by_cases hstop : (attempt = maxAttempts || !networkAndServerErrors m) = true
      · simp [runRetry, fetchSinglePage, henv, hstop, countAttempts]
      · simp [runRetry, fetchSinglePage, henv, hstop, countAttempts_append,
          countAttempts]

/-- C3 counterexample: with a first-attempt network timeout and a successful
second attempt, the trace shows the rate-limiter token being acquired twice
— once inside each retry attempt, after the circuit breaker and the retry
executor have been entered — refuting "acquired once, before the
retry/circuit-breaker-wrapped fetch begins". -/
theorem ratelimiter_order_counterexample :
    (fetchSinglePageWithRetry id 86400000 cacheEmpty
        (CircuitBreaker.mk0 cbDefaultOptions) "u" 0 0 envTimeoutThenOk true).2.2.2 =
      [.cacheLookup "page:u", .breakerEnter, .attemptStart 1, .acquireToken,
       .httpRequest "u", .attemptStart 2, .acquireToken, .httpRequest "u",
       .cacheStore "page:u" 1800000]
  ∧ countAcquireTokens (fetchSinglePageWithRetry id 86400000 cacheEmpty
        (CircuitBreaker.mk0 cbDefaultOptions) "u" 0 0 envTimeoutThenOk
        true).2.2.2 = 2 := by
  exact ⟨by decide, by decide⟩

/-- C3 (amended): on a cache miss the fixed order is CacheStore first, then
the CircuitBreaker, then the RetryExecutor, and the rate-limiter token is
acquired inside `fetchSinglePage` once per attempt (so after the
breaker/retry pipeline has been entered, not once before it); on a cache
hit nothing beyond the cache is engaged. -/
theorem pipeline_component_order (hash : String → String) (defaultTtl : ℤ)
    (st : CacheState DeepWikiPage) (b : CircuitBreaker) (url : String)
    (depth : ℕ) (now : ℤ) (env : ℕ → NetOutcome) (diskOk : Bool)
    (hmiss : (cacheGet hash st ("page:" ++ url) now).1 = none)
    (hclosed : b.state = .CLOSED) :
    (fetchSinglePageWithRetry hash defaultTtl st b url depth now env
        diskOk).2.2.2.take 2
      = [.cacheLookup ("page:" ++ url), .breakerEnter]
  ∧ countAcquireTokens
      (fetchSinglePageWithRetry hash defaultTtl st b url depth now env
        diskOk).2.2.2
    = countAttempts
      (fetchSinglePageWithRetry hash defaultTtl st b url depth now env
        diskOk).2.2.2
  ∧ 1 ≤ countAttempts
      (fetchSinglePageWithRetry hash defaultTtl st b url depth now env
        diskOk).2.2.2 := by
  have hpf : b.preflight now = some b := by
    simp [CircuitBreaker.preflight, hclosed]
  have hacq := runRetry_acquire_per_attempt hash defaultTtl url depth now diskOk
    env 3 3 1 (cacheGet hash st ("page:" ++ url) now).2
  have hpos := runRetry_attempts_pos hash defaultTtl url depth now diskOk env 3 2 1
    (cacheGet hash st ("page:" ++ url) now).2
  simp only [fetchSinglePageWithRetry, hmiss, hpf]
  rcases hr : runRetry hash defaultTtl url depth now diskOk env 3 3 1
      (cacheGet hash st ("page:" ++ url) now).2 with ⟨res, st2, evs⟩
  rw [hr] at hacq hpos
  dsimp only at hacq hpos
  have h2 : countAcquireTokens
      [FetchEvent.cacheLookup ("page:" ++ url), FetchEvent.breakerEnter] = 0 := rfl
  have h3 : countAttempts
      [FetchEvent.cacheLookup ("page:" ++ url), FetchEvent.breakerEnter] = 0 := rfl
  cases res with
  | ok v =>
      dsimp only
      refine ⟨rfl, ?_, ?_⟩
      · rw [countAcquireTokens_append, countAttempts_append, hacq, h2, h3]
      · rw [countAttempts_append, h3]
        omega
  | error m =>
      dsimp only
      refine ⟨rfl, ?_, ?_⟩
      · rw [countAcquireTokens_append, countAttempts_append, hacq, h2, h3]
      · rw [countAttempts_append, h3]
        omega

/-- Witness for `pipeline_component_order` at a concrete always-OK network. -/
theorem pipeline_component_order_witness :
    (fetchSinglePageWithRetry id 86400000 cacheEmpty
        (CircuitBreaker.mk0 cbDefaultOptions) "w" 0 0
        (fun _ => .okPage "T" "C" "H") true).2.2.2.take 2
      = [.cacheLookup "page:w", .breakerEnter]
  ∧ countAcquireTokens (fetchSinglePageWithRetry id 86400000 cacheEmpty
        (CircuitBreaker.mk0 cbDefaultOptions) "w" 0 0
        (fun _ => .okPage "T" "C" "H") true).2.2.2
    = countAttempts (fetchSinglePageWithRetry id 86400000 cacheEmpty
        (CircuitBreaker.mk0 cbDefaultOptions) "w" 0 0
        (fun _ => .okPage "T" "C" "H") true).2.2.2
  ∧ 1 ≤ countAttempts (fetchSinglePageWithRetry id 86400000 cacheEmpty
        (CircuitBreaker.mk0 cbDefaultOptions) "w" 0 0
        (fun _ => .okPage "T" "C" "H") true).2.2.2 :=
  pipeline_component_order id 86400000 cacheEmpty
    (CircuitBreaker.mk0 cbDefaultOptions) "w" 0 0 (fun _ => .okPage "T" "C" "H")
    true (by decide) (by decide)

/-- C9: a non-ok HTTP response makes `fetchSinglePage` resolve `null` rather
than throw, so the retry wrapper performs exactly one attempt, the circuit
breaker records the call as a success and resets `failureCount` to 0, and
the breaker stays CLOSED — HTTP status errors alone can never open it (each
such call re-establishes `state = CLOSED ∧ failureCount = 0`, so any
sequence of them preserves it). -/
theorem http_status_breaker_success (hash : String → String) (defaultTtl : ℤ)
    (st : CacheState DeepWikiPage) (b : CircuitBreaker) (url : String)
    (depth : ℕ) (now : ℤ) (env : ℕ → NetOutcome) (diskOk : Bool) (code : ℕ)
    (hmiss : (cacheGet hash st ("page:" ++ url) now).1 = none)
    (hclosed : b.state = .CLOSED)
    (henv : env 1 = .httpStatus code) :
    (fetchSinglePageWithRetry hash defaultTtl st b url depth now env diskOk).1
      = .ok none
  ∧ countAttempts
      (fetchSinglePageWithRetry hash defaultTtl st b url depth now env
        diskOk).2.2.2 = 1
  ∧ (fetchSinglePageWithRetry hash defaultTtl st b url depth now env
      diskOk).2.2.1.state = .CLOSED
  ∧ (fetchSinglePageWithRetry hash defaultTtl st b url depth now env
      diskOk).2.2.1.failureCount = 0 := by
  rw [pipeline_http_status hash defaultTtl st b url depth now env diskOk code
    hmiss hclosed henv]
  exact ⟨rfl, rfl, hclosed, rfl⟩

/-- Witness for `http_status_breaker_success` at a concrete HTTP 503. -/
theorem http_status_breaker_success_witness :
    (fetchSinglePageWithRetry id 86400000 cacheEmpty
        (CircuitBreaker.mk0 cbDefaultOptions) "x" 0 0
        (fun _ => .httpStatus 503) true).1 = .ok none
  ∧ countAttempts (fetchSinglePageWithRetry id 86400000 cacheEmpty
        (CircuitBreaker.mk0 cbDefaultOptions) "x" 0 0
        (fun _ => .httpStatus 503) true).2.2.2 = 1
  ∧ (fetchSinglePageWithRetry id 86400000 cacheEmpty
        (CircuitBreaker.mk0 cbDefaultOptions) "x" 0 0
        (fun _ => .httpStatus 503) true).2.2.1.state = .CLOSED
  ∧ (fetchSinglePageWithRetry id 86400000 cacheEmpty
        (CircuitBreaker.mk0 cbDefaultOptions) "x" 0 0
        (fun _ => .httpStatus 503) true).2.2.1.failureCount = 0 :=
  http_status_breaker_success id 86400000 cacheEmpty
    (CircuitBreaker.mk0 cbDefaultOptions) "x" 0 0 (fun _ => .httpStatus 503)
    true 503 (by decide) (by decide) rfl

lemma cacheGet_mem_hit {α : Type} (hash : String → String) (st : CacheState α)
    (key : String) (now : ℤ) (e : CacheEntry α)
    (hmem : st.mem (hash key) = some e)
    (hfresh : ¬ (e.ttl < now - e.timestamp)) :
    cacheGet hash st key now = (some e.data, st) := by
  simp [cacheGet, hmem, isExpired, hfresh]

lemma fetchSinglePageWithRetry_hit (hash : String → String) (defaultTtl : ℤ)
    (st : CacheState DeepWikiPage) (b : CircuitBreaker) (url : String)
    (depth : ℕ) (now : ℤ) (env : ℕ → NetOutcome) (diskOk : Bool)
    (p : DeepWikiPage)
    (hhit : cacheGet hash st ("page:" ++ url) now = (some p, st)) :
    fetchSinglePageWithRetry hash defaultTtl st b url depth now env diskOk =
      (.ok (some p), st, b,
        [.cacheLookup ("page:" ++ url), .cacheHit ("page:" ++ url)]) := by
  simp [fetchSinglePageWithRetry, hhit]

/-- C10: a successful fetch caches the page under `page:<url>` with a
30-minute ttl (1800000 ms), and any later single-page fetch of the same URL
within that ttl is answered from the cache: it returns the same page, leaves
the circuit breaker untouched, and its trace is exactly the cache lookup and
hit — no rate-limiter token, no retry attempt, no breaker entry. -/
theorem page_cache_roundtrip (hash : String → String) (defaultTtl : ℤ)
    (st : CacheState DeepWikiPage) (b : CircuitBreaker) (url ti c raw : String)
    (depth : ℕ) (now : ℤ) (env : ℕ → NetOutcome) (diskOk : Bool)
    (hmiss : (cacheGet hash st ("page:" ++ url) now).1 = none)
    (hclosed : b.state = .CLOSED)
    (henv : env 1 = .okPage ti c raw) :
    (fetchSinglePageWithRetry hash defaultTtl st b url depth now env diskOk).1
      = .ok (some ⟨url, ti, c, depth, raw, now⟩)
  ∧ FetchEvent.cacheStore ("page:" ++ url) 1800000 ∈
      (fetchSinglePageWithRetry hash defaultTtl st b url depth now env
        diskOk).2.2.2
  ∧ (fetchSinglePageWithRetry hash defaultTtl st b url depth now env
        diskOk).2.1.mem (hash ("page:" ++ url))
      = some ⟨⟨url, ti, c, depth, raw, now⟩, now, 1800000, hash ("page:" ++ url)⟩
  ∧ (∀ (b' : CircuitBreaker) (env' : ℕ → NetOutcome) (diskOk' : Bool) (now' : ℤ),
      now' - now ≤ 1800000 →
      fetchSinglePageWithRetry hash defaultTtl
          (fetchSinglePageWithRetry hash defaultTtl st b url depth now env
            diskOk).2.1 b' url depth now' env' diskOk' =
        (.ok (some ⟨url, ti, c, depth, raw, now⟩),
          (fetchSinglePageWithRetry hash defaultTtl st b url depth now env
            diskOk).2.1, b',
          [.cacheLookup ("page:" ++ url), .cacheHit ("page:" ++ url)])) := by
  rw [pipeline_ok_first hash defaultTtl st b url ti c raw depth now env diskOk
    hmiss hclosed henv]
  have hmem : (cacheSet hash defaultTtl (cacheGet hash st ("page:" ++ url) now).2
      ("page:" ++ url) ⟨url, ti, c, depth, raw, now⟩ 1800000 now diskOk).mem
        (hash ("page:" ++ url))
      = some ⟨⟨url, ti, c, depth, raw, now⟩, now, 1800000, hash ("page:" ++ url)⟩ := by
    cases diskOk <;> simp [cacheSet, mapUpdate]
  refine ⟨rfl, by simp, hmem, ?_⟩
  intro b' env' diskOk' now' hwin
  have hexp : ¬ ((1800000 : ℤ) < now' - now) := by omega
  exact fetchSinglePageWithRetry_hit hash defaultTtl _ b' url depth now' env'
    diskOk' _ (cacheGet_mem_hit hash _ ("page:" ++ url) now' _ hmem hexp)

/-- Witness for `page_cache_roundtrip`: fetch at time 0, cache hit at time
1000000 (within the 30-minute ttl). -/
theorem page_cache_roundtrip_witness :
    (fetchSinglePageWithRetry id 86400000 cacheEmpty
        (CircuitBreaker.mk0 cbDefaultOptions) "y" 0 0
        (fun _ => .okPage "T" "C" "H") true).1
      = .ok (some ⟨"y", "T", "C", 0, "H", 0⟩)
  ∧ fetchSinglePageWithRetry id 86400000
      (fetchSinglePageWithRetry id 86400000 cacheEmpty
        (CircuitBreaker.mk0 cbDefaultOptions) "y" 0 0
        (fun _ => .okPage "T" "C" "H") true).2.1
      (CircuitBreaker.mk0 cbDefaultOptions) "y" 0 1000000
      (fun _ => .httpStatus 500) false =
    (.ok (some ⟨"y", "T", "C", 0, "H", 0⟩),
      (fetchSinglePageWithRetry id 86400000 cacheEmpty
        (CircuitBreaker.mk0 cbDefaultOptions) "y" 0 0
        (fun _ => .okPage "T" "C" "H") true).2.1,
      CircuitBreaker.mk0 cbDefaultOptions,
      [.cacheLookup "page:y", .cacheHit "page:y"]) :=
  ⟨(page_cache_roundtrip id 86400000 cacheEmpty
      (CircuitBreaker.mk0 cbDefaultOptions) "y" "T" "C" "H" 0 0
      (fun _ => .okPage "T" "C" "H") true (by decide) (by decide) rfl).1,
   (page_cache_roundtrip id 86400000 cacheEmpty
      (CircuitBreaker.mk0 cbDefaultOptions) "y" "T" "C" "H" 0 0
      (fun _ => .okPage "T" "C" "H") true (by decide) (by decide) rfl).2.2.2
      (CircuitBreaker.mk0 cbDefaultOptions) (fun _ => .httpStatus 500) false
      1000000 (by decide)⟩

lemma processSettled_length_le {υ : Type} [DecidableEq υ] (w : CrawlWorld υ)
    (maxDepth : ℕ) (visited : List υ) :
    ∀ (ts : List (υ × ℕ)) (pages : List (CrawlPage υ)),
      (processSettled w maxDepth visited ts pages).1.length ≤
        pages.length + ts.length := by
  intro ts
  induction ts with
  | nil => intro pages; simp [processSettled]
  | cons t ts ih =>
      intro pages
      cases h : w.outcome t.1 with
      | ok =>
          have := ih (pages ++ [⟨t.1, w.title t.1, w.content t.1, t.2⟩])
          simp only [processSettled, h] at this ⊢
          simp only [List.length_append, List.length_cons, List.length_nil]
            at this ⊢
          omega
      | nullPage =>
          have := ih pages
          simp only [processSettled, h]
          simp only [List.length_cons]
          omega
      | err =>
          have := ih pages
          simp only [processSettled, h]
          simp only [List.length_cons]
          omega

lemma processSettled_ok_mem {υ : Type} [DecidableEq υ] (w : CrawlWorld υ)
    (maxDepth : ℕ) (visited : List υ) :
    ∀ (ts : List (υ × ℕ)) (pages : List (CrawlPage υ)),
      (∀ p ∈ pages, w.outcome p.url = .ok) →
      ∀ p ∈ (processSettled w maxDepth visited ts pages).1,
        w.outcome p.url = .ok := by
  intro ts
  induction ts with
  | nil => intro pages hp; simpa [processSettled] using hp
  | cons t ts ih =>
      intro pages hp
      cases h : w.outcome t.1 with
      | ok =>
          simp only [processSettled, h]
          refine ih _ ?_
          intro p hmem
          rcases List.mem_append.mp hmem with h1 | h1
          · exact hp p h1
          · simp only [List.mem_singleton] at h1
            subst h1
            exact h
      | nullPage => simp only [processSettled, h]; exact ih pages hp
      | err => simp only [processSettled, h]; exact ih pages hp

lemma fetchAllPagesLoop_length_le {υ : Type} [DecidableEq υ] (w : CrawlWorld υ)
    (maxDepth : ℕ) :
    ∀ (fuel : ℕ) (visited : List υ) (queue : List (υ × ℕ))
      (pages : List (CrawlPage υ)), pages.length ≤ 104 →
      (fetchAllPagesLoop w maxDepth fuel visited queue pages).length ≤ 104 := by
  intro fuel
  induction fuel with
  | zero => intro visited queue pages hp; simpa [fetchAllPagesLoop] using hp
  | succ n ih =>
      intro visited queue pages hp
      by_cases hstop : (queue.isEmpty || !decide (pages.length < 100)) = true
      · simp [fetchAllPagesLoop, hstop, hp]
      · have hlt : pages.length < 100 := by
          rcases Bool.or_eq_false_iff.mp (Bool.not_eq_true _ ▸ hstop) with ⟨_, h2⟩
          simpa using h2
        simp only [fetchAllPagesLoop, hstop, if_false, Bool.false_eq_true]
        set n5 := min 5 queue.length with hn5
        set tasks := (queue.take n5).filter
          (fun t => !visited.contains t.1 && t.2 ≤ maxDepth) with htasks
        have htlen : tasks.length ≤ 5 := by
          calc tasks.length ≤ (queue.take n5).length := List.length_filter_le _ _
            _ = min n5 queue.length := List.length_take n5 queue
            _ ≤ n5 := min_le_left _ _
            _ ≤ 5 := min_le_left _ _
        by_cases hempty : tasks.isEmpty = true
        · simp only [hempty, if_true]
          exact ih _ _ _ hp
        · simp only [hempty, if_false, Bool.false_eq_true]
          refine ih _ _ _ ?_
          have := processSettled_length_le w maxDepth
            (visited ++ tasks.map (·.1)) tasks pages
          omega

lemma fetchAllPagesLoop_ok_mem {υ : Type} [DecidableEq υ] (w : CrawlWorld υ)
    (maxDepth : ℕ) :
    ∀ (fuel : ℕ) (visited : List υ) (queue : List (υ × ℕ))
      (pages : List (CrawlPage υ)),
      (∀ p ∈ pages, w.outcome p.url = .ok) →
      ∀ p ∈ fetchAllPagesLoop w maxDepth fuel visited queue pages,
        w.outcome p.url = .ok := by
  intro fuel
  induction fuel with
  | zero => intro visited queue pages hp; simpa [fetchAllPagesLoop] using hp
  | succ n ih =>
      intro visited queue pages hp
      by_cases hstop : (queue.isEmpty || !decide (pages.length < 100)) = true
      · simpa [fetchAllPagesLoop, hstop] using hp
      · simp only [fetchAllPagesLoop, hstop, if_false, Bool.false_eq_true]
        set n5 := min 5 queue.length with hn5
        set tasks := (queue.take n5).filter
          (fun t => !visited.contains t.1 && t.2 ≤ maxDepth) with htasks
        by_cases hempty : tasks.isEmpty = true
        · simp only [hempty, if_true]
          exact ih _ _ _ hp
        · simp only [hempty, if_false, Bool.false_eq_true]
          exact ih _ _ _
            (processSettled_ok_mem w maxDepth (visited ++ tasks.map (·.1))
              tasks pages hp)

set_option maxRecDepth 10000 in
/-- C1 counterexample (Scenario B): with a root page linking to 150
same-repository pages and every fetch succeeding, the crawl returns
`pageCount = 101` — the 100-page safety cap is checked only before a batch of
up to 5 tasks is dispatched, so it is overshot. -/
theorem crawl_cap_counterexample :
    (fetchPages capWorld "owner/repo" 10 200 0 0).pageCount = 101 ∧
    ¬ ((fetchPages capWorld "owner/repo" 10 200 0 0).pageCount ≤ 100) := by
  have h : (fetchAllPages capWorld 10 200 0).length = 101 := by decide
  constructor
  · simpa [fetchPages] using h
  · simp [fetchPages, h]

/-- C1 (amended): `pageCount` never exceeds 104: the loop dispatches a batch
of at most 5 tasks only while `pages.length < 100`, so the 100 cap can be
overshot by at most `batchSize - 1 = 4`; with a root linking to 150 pages
the result has `pageCount = 101 ≤ 104`. -/
theorem crawl_page_cap {υ : Type} [DecidableEq υ] (w : CrawlWorld υ)
    (repo : String) (maxDepth fuel : ℕ) (root : υ) (now : ℤ) :
    (fetchAggregated w repo maxDepth fuel root now).pageCount ≤ 104 ∧
    (fetchPages w repo maxDepth fuel root now).pageCount ≤ 104 := by
  constructor
  · simpa [fetchAggregated] using
      fetchAllPagesLoop_length_le w maxDepth fuel [] [(root, 0)] [] (by simp)
  · simpa [fetchPages] using
      fetchAllPagesLoop_length_le w maxDepth fuel [] [(root, 0)] [] (by simp)

/-- Witness for `crawl_page_cap` at the Scenario B world. -/
theorem crawl_page_cap_witness :
    (fetchAggregated capWorld "owner/repo" 10 200 0 0).pageCount ≤ 104 ∧
    (fetchPages capWorld "owner/repo" 10 200 0 0).pageCount ≤ 104 :=
  crawl_page_cap capWorld "owner/repo" 10 200 0 0

/-- C5 counterexample: when the root page cannot be fetched the crawl yields
zero pages and the aggregate-mode tool response is the ordinary text
`"No content found"` — not the claimed failure message
`"no substantial content found"`. -/
theorem crawl_no_content_counterexample :
    deepwikiFetchAggregateText (fetchAggregated rootFailWorld "o/r" 10 10 0 0)
      = "No content found"
  ∧ deepwikiFetchAggregateText (fetchAggregated rootFailWorld "o/r" 10 10 0 0)
      ≠ "no substantial content found" := by
  exact ⟨by decide, by decide⟩

/-- C5 (amended): a crawl with zero fetchable pages surfaces the fallback
text `"No content found"` (an ordinary content response, not a thrown
failure, and not the message "no substantial content found"); every returned
page is one whose fetch succeeded, and in a concrete crawl where the fetch
of one linked page fails while the root and the other link succeed, the
result still contains the two successful pages in discovery order
(`pageCount = 2`). -/
theorem crawl_partial_results {υ : Type} [DecidableEq υ] (w : CrawlWorld υ)
    (repo : String) (maxDepth fuel : ℕ) (root : υ) (now : ℤ) :
    (fetchAllPages w maxDepth fuel root = [] →
       deepwikiFetchAggregateText (fetchAggregated w repo maxDepth fuel root now)
         = "No content found")
  ∧ (∀ p ∈ fetchAllPages w maxDepth fuel root, w.outcome p.url = .ok)
  ∧ (fetchPages mixedWorld "o/r" 1 30 0 0).pageCount = 2
  ∧ (fetchPages mixedWorld "o/r" 1 30 0 0).pages.map CrawlPage.url = [0, 2] := by
  refine ⟨?_, ?_, by decide, by decide⟩
  · intro h
    simp [fetchAggregated, deepwikiFetchAggregateText, fetchAllPages] at h ⊢
    simp [h, String.intercalate]
  · exact fetchAllPagesLoop_ok_mem w maxDepth fuel [] [(root, 0)] []
      (by intro p hp; simp at hp)

/-- Witness for `crawl_partial_results`: the all-fetches-fail world yields
the fallback text. -/
theorem crawl_partial_results_witness :
    deepwikiFetchAggregateText (fetchAggregated rootFailWorld "w/r" 10 10 0 0)
      = "No content found" :=
  (crawl_partial_results rootFailWorld "w/r" 10 10 0 0).1 (by decide)

end DeepWiki
